import Mathlib

/-!
Shallow embedding of the herbarium management services
(`src/Servicios/Gest_Herb_service/src/app.js` and
`src/Servicios/Lab_Service/src/app.js`) and proofs about the
package-state recompute and the statistics aggregators.

Database rows are modelled as Lean structures, the database as lists of
rows, and each HTTP handler / helper function as a pure Lean function
from the database (plus request parameters and a record of injected
fetch/write failures) to a response and a new database.  JavaScript
truthiness on strings/numbers and `Math.round` are modelled explicitly.
-/

/-- `Math.round (num / den)` for natural `num` and `den > 0`:
round half up of a non-negative ratio. -/
def jsRound (num den : Nat) : Nat :=
  (2 * num + den) / (2 * den)

/-- JavaScript truthiness of a nullable string: `null`/`undefined` and the
empty string are falsy. -/
def jsTruthyStr : Option String → Bool
  | none => false
  | some s => !(s == "")

/-- JavaScript truthiness of a plain string: only the empty string is
falsy. -/
def jsTruthy (s : String) : Bool := !(s == "")

/-- JavaScript truthiness of a nullable number: `null`/`undefined` and
`0` are falsy. -/
def jsTruthyNat : Option Nat → Bool
  | none => false
  | some n => !(n == 0)

/-- Insert an element into a sorted list, after every element that may
stay before it. -/
def insertarOrdenado {α : Type} (le : α → α → Bool) (x : α) :
    List α → List α
  | [] => [x]
  | y :: ys => if le y x then y :: insertarOrdenado le x ys else x :: y :: ys

/-- Stable sort by insertion.  For a consistent comparator this computes
exactly the result of the stable `Array.prototype.sort`: `le a b` states
that `a` may stay before `b`. -/
def ordenarEstable {α : Type} (le : α → α → Bool) : List α → List α
  | [] => []
  | x :: xs => insertarOrdenado le x (ordenarEstable le xs)

namespace GestHerb

/-- Row of `muestra_botanica` (the columns used by the recompute):
`id` and the nullable owning-package reference `id_paquete`. -/
structure Muestra where
  id : Nat
  id_paquete : Option Nat
deriving DecidableEq

/-- Row of `clasificacion_herbario` (the columns used by the
classification endpoints). -/
structure Clasificacion where
  id : Nat
  id_muestra : Nat
  estado : String
  id_especie : Option Nat
  estado_reproductivo : Option String
deriving DecidableEq

/-- Row of `paquete` (the columns used by the recompute). -/
structure Paquete where
  id : Nat
  estado : String
deriving DecidableEq

/-- The database state seen by `Gest_Herb_service`.  `sigClasifId` models
the autoincrement sequence behind `clasificacion_herbario.id`. -/
structure DB where
  muestras : List Muestra
  clasificaciones : List Clasificacion
  paquetes : List Paquete
  sigClasifId : Nat
deriving DecidableEq

/-- Injected failures for the three database operations inside
`actualizarEstadoPaqueteManual` (sample lookup, sample-set fetch with
joined classifications, package write). -/
structure FallosRecompute where
  fallaBusquedaMuestra : Bool
  fallaConsultaMuestras : Bool
  fallaEscrituraPaquete : Bool
deriving DecidableEq

/-- No injected failures. -/
def sinFallos : FallosRecompute := ⟨false, false, false⟩

/-- The `clasificacion_herbario!left(estado)` join array of one sample:
the states of the classification rows whose `id_muestra` matches. -/
def estadosDeMuestra (db : DB) (idMuestra : Nat) : List String :=
  (db.clasificaciones.filter (fun c => c.id_muestra == idMuestra)).map
    (fun c => c.estado)

/-- The single counting pass of `actualizarEstadoPaqueteManual`
(app.js lines 908-923): over the join rows of one package it counts
`completadas` (first classification state in
`['completado','firmado','clasificado']`) and `enProceso` (first
classification state in `['en_analisis','borrador']`); a sample with an
empty classification array counts toward neither. -/
def pasoContar (acc : Nat × Nat) (fila : List String) : Nat × Nat :=
  match fila.head? with
  | some estado =>
    if estado ∈ ["completado", "firmado", "clasificado"] then
      (acc.1 + 1, acc.2)
    else if estado ∈ ["en_analisis", "borrador"] then
      (acc.1, acc.2 + 1)
    else acc
  | none => acc

/-- The two counters after the counting pass, starting from `(0, 0)`. -/
def contarClasificaciones (filas : List (List String)) : Nat × Nat :=
  List.foldl pasoContar (0, 0) filas

/-- The state derivation of `actualizarEstadoPaqueteManual`
(app.js lines 925-931): `completo` when `totalMuestras > 0` and
`completadas === totalMuestras`, else `en_proceso` when `enProceso > 0`,
else `recibido`. -/
def nuevoEstadoPaquete (filas : List (List String)) : String :=
  let total := filas.length
  let cuentas := contarClasificaciones filas
  if 0 < total ∧ cuentas.1 = total then "completo"
  else if 0 < cuentas.2 then "en_proceso"
  else "recibido"

/-- The join-query result for one package: for every sample of the
package, its array of classification states. -/
def filasPaquete (db : DB) (idPaquete : Nat) : List (List String) :=
  (db.muestras.filter (fun m => m.id_paquete == some idPaquete)).map
    (fun m => estadosDeMuestra db m.id)

/-- `actualizarEstadoPaqueteManual(idMuestra)` (app.js lines 878-954):
looks up the sample, bails out silently when the lookup fails, the sample
is missing, or its `id_paquete` is null; fetches the package's samples
with their classifications; derives the new state; and writes it to the
`paquete` row unconditionally.  Returns the new database together with
the list of package writes performed (package id, written state).  Every
failure path returns normally with the database unchanged. -/
def actualizarEstadoPaqueteManual (db : DB) (f : FallosRecompute)
    (idMuestra : Nat) : DB × List (Nat × String) :=
  if f.fallaBusquedaMuestra then (db, [])
  else
    match db.muestras.find? (fun m => m.id == idMuestra) with
    | none => (db, [])
    | some muestra =>
      match muestra.id_paquete with
      | none => (db, [])
      | some idPaquete =>
        if f.fallaConsultaMuestras then (db, [])
        else
          let nuevoEstado := nuevoEstadoPaquete (filasPaquete db idPaquete)
          if f.fallaEscrituraPaquete then (db, [])
          else
            ({ db with
                paquetes := db.paquetes.map (fun p =>
                  if p.id == idPaquete then { p with estado := nuevoEstado }
                  else p) },
             [(idPaquete, nuevoEstado)])

/-- An HTTP response of the classification endpoints (the fields the
handlers put in their JSON bodies). -/
structure Respuesta where
  status : Nat
  id : Option Nat
  estado : Option String
  message : Option String
  error : Option String
deriving DecidableEq

/-- `PUT /clasificaciones/:idMuestra/estado` (app.js lines 765-848):
rejects an unparsable id (modelled as `none`) with 400, a falsy `estado`
with 400; updates the existing classification row for the sample when one
exists (responding 200), otherwise inserts a new row with the given
state, null species and null reproductive state (responding 201 with the
new row's id).  The package recompute runs in the background with its
errors swallowed, so only the database — never the response — depends on
its outcome. -/
def putEstadoPorMuestra (db : DB) (f : FallosRecompute)
    (idMuestraParam : Option Nat) (estado : Option String) :
    Respuesta × DB :=
  match idMuestraParam with
  | none => (⟨400, none, none, none, some "ID de muestra inválido"⟩, db)
  | some idMuestraNum =>
    if !(jsTruthyStr estado) then
      (⟨400, none, none, none, some "Estado es requerido"⟩, db)
    else
      let e := estado.getD ""
      match db.clasificaciones.find? (fun c => c.id_muestra == idMuestraNum) with
      | some existing =>
        let db1 := { db with
          clasificaciones := db.clasificaciones.map (fun c =>
            if c.id == existing.id then { c with estado := e } else c) }
        let db2 := (actualizarEstadoPaqueteManual db1 f existing.id_muestra).1
        (⟨200, some existing.id, some e, some "Estado actualizado", none⟩, db2)
      | none =>
        let nuevaId := db.sigClasifId
        let db1 := { db with
          clasificaciones :=
            db.clasificaciones ++ [⟨nuevaId, idMuestraNum, e, none, none⟩],
          sigClasifId := nuevaId + 1 }
        let db2 := (actualizarEstadoPaqueteManual db1 f idMuestraNum).1
        (⟨201, some nuevaId, some e, some "Clasificación creada", none⟩, db2)

/-- `PUT /clasificaciones/id/:id/estado` (app.js lines 988-1036): rejects
a falsy `estado` with 400; otherwise writes the given state to the
classification row with that id without validating it against any enum,
fetches the row's `id_muestra` to trigger the background package
recompute, and responds 200 with the id and the state as sent. -/
def putEstadoPorId (db : DB) (f : FallosRecompute) (idClasif : Nat)
    (estado : Option String) : Respuesta × DB :=
  if !(jsTruthyStr estado) then
    (⟨400, none, none, none, some "Estado es requerido"⟩, db)
  else
    let e := estado.getD ""
    let db1 := { db with
      clasificaciones := db.clasificaciones.map (fun (c : Clasificacion) =>
        if c.id == idClasif then { c with estado := e } else c) }
    let db2 :=
      match db1.clasificaciones.find? (fun c => c.id == idClasif) with
      | some clasificacion =>
        if clasificacion.id_muestra ≠ 0 then
          (actualizarEstadoPaqueteManual db1 f clasificacion.id_muestra).1
        else db1
      | none => db1
    (⟨200, some idClasif, some e, some "Estado actualizado", none⟩, db2)

/-- Following the claim's words (for comparison with the code): the
number of samples of the package whose classification state lies in
`{completado, firmado, clasificado}`; a sample with no classification
record counts toward neither counter. -/
def cuentaCompletadasSegunSpec (filas : List (List String)) : Nat :=
  (filas.filter (fun fila =>
    match fila.head? with
    | some estado => decide (estado ∈ ["completado", "firmado", "clasificado"])
    | none => false)).length

/-- Following the claim's words (for comparison with the code): the
number of samples of the package whose classification state lies in
`{en_analisis, borrador}`. -/
def cuentaEnProcesoSegunSpec (filas : List (List String)) : Nat :=
  (filas.filter (fun fila =>
    match fila.head? with
    | some estado => decide (estado ∈ ["en_analisis", "borrador"])
    | none => false)).length

end GestHerb

namespace Lab

/-- Joined `familia` row (only `nombre` is selected). -/
structure Familia where
  nombre : String
deriving DecidableEq

/-- Joined `genero` row with its nullable `familia`. -/
structure Genero where
  nombre : String
  familia : Option Familia
deriving DecidableEq

/-- Joined `especie` row with its nullable threat category and nullable
`genero`. -/
structure Especie where
  nombre : String
  tipo_amenaza : Option String
  genero : Option Genero
deriving DecidableEq

/-- Joined `region` row. -/
structure Region where
  nombre : String
deriving DecidableEq

/-- Joined `departamento` row with its nullable `region`. -/
structure Departamento where
  nombre : String
  region : Option Region
deriving DecidableEq

/-- Joined `municipio` row with its nullable `departamento`. -/
structure Municipio where
  nombre : String
  departamento : Option Departamento
deriving DecidableEq

/-- Joined `conglomerado` row with its nullable `municipio`. -/
structure Conglomerado where
  municipio : Option Municipio
deriving DecidableEq

/-- Joined `paquete` row with its nullable `conglomerado`. -/
structure PaqueteJoin where
  conglomerado : Option Conglomerado
deriving DecidableEq

/-- Row of the `muestra_botanica` query of `GET /estadisticas`
(app.js lines 360-393): the sample id and its location join chain. -/
structure MuestraEst where
  id : Nat
  paquete : Option PaqueteJoin
deriving DecidableEq

/-- Row of the `clasificacion_herbario` query of `GET /estadisticas`
(app.js lines 400-418). -/
structure ClasifEst where
  id : Nat
  id_muestra : Nat
  id_especie : Option Nat
  estado : String
  especie : Option Especie
deriving DecidableEq

/-- The `dept` of a sample:
`muestra.paquete?.conglomerado?.municipio?.departamento`. -/
def deptDePaquete (p : Option PaqueteJoin) : Option Departamento :=
  ((p.bind (fun pq => pq.conglomerado)).bind (fun cg => cg.municipio)).bind
    (fun mu => mu.departamento)

/-- Case-insensitive lowering of one character, covering the accented
capital of the literal `Región` matched by the `/^Región\s+/i` regex. -/
def minusculaRegion (c : Char) : Char :=
  if c = 'Ó' then 'ó' else c.toLower

/-- The regex replace `nombre.replace(/^Región\s+/i, '')`: when the
string starts with `Región` (case-insensitively) followed by at least one
whitespace character, drop the literal and the whitespace run. -/
def quitarPrefijoRegion (cs : List Char) : List Char :=
  match cs with
  | c0 :: c1 :: c2 :: c3 :: c4 :: c5 :: resto =>
    if [c0, c1, c2, c3, c4, c5].map minusculaRegion = "región".toList then
      match resto with
      | [] => cs
      | c :: _ =>
        if c.isWhitespace then resto.dropWhile Char.isWhitespace else cs
    else cs
  | _ => cs

/-- `String.prototype.trim`: drop leading and trailing whitespace. -/
def recortar (cs : List Char) : List Char :=
  ((cs.dropWhile Char.isWhitespace).reverse.dropWhile Char.isWhitespace).reverse

/-- `normalizarRegion` (duplicated at app.js lines 510-513 and 643-646):
`null` for a falsy name, otherwise the name with a leading
`Región␣` prefix stripped and the result trimmed. -/
def normalizarRegion (s : String) : Option String :=
  if s = "" then none
  else some (String.mk (recortar (quitarPrefijoRegion s.data)))

/-- `Map.prototype.get`: first binding of the key in the
insertion-ordered association list. -/
def mapaObtener {β : Type} (m : List (String × β)) (k : String) : Option β :=
  (m.find? (fun kv => kv.1 == k)).map (fun kv => kv.2)

/-- `Map.prototype.set`: update the existing binding in place, else
append a new one. -/
def mapaPoner {β : Type} (m : List (String × β)) (k : String) (v : β) :
    List (String × β) :=
  if (m.find? (fun kv => kv.1 == k)).isSome then
    m.map (fun kv => if kv.1 == k then (k, v) else kv)
  else m ++ [(k, v)]

/-- In-place mutation of the object stored under a key (the JS code
mutates `map.get(k)` directly). -/
def mapaModificar {β : Type} (m : List (String × β)) (k : String)
    (f : β → β) : List (String × β) :=
  m.map (fun kv => if kv.1 == k then (kv.1, f kv.2) else kv)

/-- `Set.prototype.add` on an insertion-ordered set of strings. -/
def agregarSet (l : List String) (s : String) : List String :=
  if s ∈ l then l else l ++ [s]

/-- Per-department accumulator of `GET /estadisticas`
(`departamentosMap` values). -/
structure DatosDept where
  name : String
  specimens : Nat
  species : List String
  region : Option String
deriving DecidableEq

/-- Per-region accumulator of `GET /estadisticas`
(`regionesMap` values). -/
structure DatosRegion where
  name : String
  specimens : Nat
  species : List String
  families : List String
  departments : List String
deriving DecidableEq

/-- The `.in('estado', ['completado', 'firmado'])` filter of the
classification query. -/
def clasificacionesFiltradas (cs : List ClasifEst) : List ClasifEst :=
  cs.filter (fun c => c.estado == "completado" || c.estado == "firmado")

/-- `clasificacionesConEspecie`: classifications of the query result with
`id_especie !== null && especie !== null` (app.js line 425). -/
def clasificacionesConEspecie (cs : List ClasifEst) : List ClasifEst :=
  (clasificacionesFiltradas cs).filter
    (fun c => c.id_especie.isSome && c.especie.isSome)

/-- First aggregation pass of `GET /estadisticas` (app.js lines 439-474):
per sample, create-and-increment the department bucket and the region
bucket keyed by the *stored* names. -/
def acumularPrimeraPasada (ms : List MuestraEst) :
    List (String × DatosDept) × List (String × DatosRegion) :=
  List.foldl
    (fun maps m =>
      let dept := deptDePaquete m.paquete
      let region := dept.bind (fun d => d.region)
      let dmap :=
        match dept with
        | some d =>
          let dmap0 :=
            if (mapaObtener maps.1 d.nombre).isSome then maps.1
            else maps.1 ++ [(d.nombre, ⟨d.nombre, 0, [], region.map (fun r => r.nombre)⟩)]
          mapaModificar dmap0 d.nombre
            (fun dd => { dd with specimens := dd.specimens + 1 })
        | none => maps.1
      let rmap :=
        match region with
        | some r =>
          let rmap0 :=
            if (mapaObtener maps.2 r.nombre).isSome then maps.2
            else maps.2 ++ [(r.nombre, ⟨r.nombre, 0, [], [], []⟩)]
          mapaModificar rmap0 r.nombre
            (fun rd =>
              let rd1 := { rd with specimens := rd.specimens + 1 }
              match dept with
              | some d => { rd1 with departments := agregarSet rd1.departments d.nombre }
              | none => rd1)
        | none => maps.2
      (dmap, rmap))
    ([], []) ms

/-- Second aggregation pass of `GET /estadisticas` (app.js lines
477-496): per classification with species, find its sample and add the
species name to the department bucket and the species/family names to
the region bucket. -/
def acumularEspecies (msClasificadas : List MuestraEst)
    (cs : List ClasifEst)
    (maps : List (String × DatosDept) × List (String × DatosRegion)) :
    List (String × DatosDept) × List (String × DatosRegion) :=
  List.foldl
    (fun maps c =>
      let muestra := msClasificadas.find? (fun m => m.id == c.id_muestra)
      let dept := muestra.bind (fun m => deptDePaquete m.paquete)
      let region := dept.bind (fun d => d.region)
      let dmap :=
        match dept, c.especie with
        | some d, some e =>
          if (mapaObtener maps.1 d.nombre).isSome && jsTruthy e.nombre then
            mapaModificar maps.1 d.nombre
              (fun dd => { dd with species := agregarSet dd.species e.nombre })
          else maps.1
        | _, _ => maps.1
      let rmap :=
        match region, c.especie with
        | some r, some e =>
          if (mapaObtener maps.2 r.nombre).isSome then
            mapaModificar maps.2 r.nombre
              (fun rd =>
                let rd1 :=
                  if jsTruthy e.nombre then
                    { rd with species := agregarSet rd.species e.nombre }
                  else rd
                match e.genero.bind (fun g => g.familia) with
                | some fam =>
                  if jsTruthy fam.nombre then
                    { rd1 with families := agregarSet rd1.families fam.nombre }
                  else rd1
                | none => rd1)
          else maps.2
        | _, _ => maps.2
      (dmap, rmap))
    maps cs

/-- `totalMuestras > 0 ? Math.round((n / totalMuestras) * 100) : 0`. -/
def porcentajeRedondeado (n total : Nat) : Nat :=
  if 0 < total then jsRound (100 * n) total else 0

/-- Output row of the `departamentos` array. -/
structure DeptSalida where
  name : String
  specimens : Nat
  species : Nat
  percentage : Nat
deriving DecidableEq

/-- Output row of the `regiones` array. -/
structure RegionSalida where
  name : String
  departments : Nat
  specimens : Nat
  species : Nat
  families : Nat
  percentage : Nat
deriving DecidableEq

/-- Output row of the `especies_amenazadas` array.  `porcentaje` models
`parseFloat(((count/total)*100).toFixed(1))` as an exact rational. -/
structure AmenazaSalida where
  categoria : String
  count : Nat
  porcentaje : ℚ
deriving DecidableEq

/-- The JSON body of `GET /estadisticas`. -/
structure Estadisticas where
  departamentos : List DeptSalida
  regiones : List RegionSalida
  total_especimenes : Nat
  total_clasificaciones : Nat
  especies_amenazadas : List AmenazaSalida
deriving DecidableEq

/-- The `departamentos` output (app.js lines 499-508): map the buckets to
rows, sort descending by `specimens` (stable, as the JS comparator
`b.specimens - a.specimens`), keep the top 10. -/
def departamentosSalida (dmap : List (String × DatosDept)) (total : Nat) :
    List DeptSalida :=
  (ordenarEstable (fun a b => b.specimens ≤ a.specimens)
    (dmap.map (fun kv =>
      (⟨kv.2.name, kv.2.specimens, kv.2.species.length,
        porcentajeRedondeado kv.2.specimens total⟩ : DeptSalida)))).take 10

/-- The per-base-name bucket resolution of the `regiones` output
(app.js lines 518-524): `regionesMap.get(base)`, else
`regionesMap.get('Región ' + base)`, else the first entry whose
normalized key equals the base name. -/
def resolverRegion (rmap : List (String × DatosRegion)) (base : String) :
    Option DatosRegion :=
  match mapaObtener rmap base with
  | some d => some d
  | none =>
    match mapaObtener rmap ("Región " ++ base) with
    | some d => some d
    | none =>
      (rmap.find? (fun kv => normalizarRegion kv.1 == some base)).map
        (fun kv => kv.2)

/-- The five fixed regions of the `regiones` output. -/
def regionesBase : List String :=
  ["Andina", "Caribe", "Pacífica", "Orinoquía", "Amazonía"]

/-- The `regiones` output (app.js lines 517-544): one row per fixed base
name, zero-valued when no bucket resolves. -/
def regionesSalida (rmap : List (String × DatosRegion)) (total : Nat) :
    List RegionSalida :=
  regionesBase.map (fun nombreBase =>
    match resolverRegion rmap nombreBase with
    | some data =>
      ⟨nombreBase, data.departments.length, data.specimens,
        data.species.length, data.families.length,
        porcentajeRedondeado data.specimens total⟩
    | none => ⟨nombreBase, 0, 0, 0, 0, 0⟩)

/-- `parseFloat(((num/den)*100).toFixed(1))` as an exact rational:
one decimal digit, round half up. -/
def jsToFixed1 (num den : Nat) : ℚ :=
  (((2000 * num + den) / (2 * den) : Nat) : ℚ) / 10

/-- The `especies_amenazadas` output (app.js lines 547-564): count
classifications per `especie?.tipo_amenaza || 'No Amenazado'` and map to
rows with a one-decimal percentage, sorted descending by count. -/
def amenazasSalida (cs : List ClasifEst) : List AmenazaSalida :=
  let amenazaMap :=
    List.foldl
      (fun m c =>
        let tipo :=
          match c.especie.bind (fun e => e.tipo_amenaza) with
          | some t => if t == "" then "No Amenazado" else t
          | none => "No Amenazado"
        mapaPoner m tipo ((mapaObtener m tipo).getD 0 + 1))
      ([] : List (String × Nat)) cs
  ordenarEstable (fun a b => b.count ≤ a.count)
    (amenazaMap.map (fun kv =>
      (⟨kv.1, kv.2,
        if 0 < cs.length then jsToFixed1 kv.2 cs.length else 0⟩ :
        AmenazaSalida)))

/-- `GET /estadisticas` (app.js lines 355-572): filter classifications to
completed/signed ones with a species, keep the samples having one, run
both aggregation passes and build the response body. -/
def estadisticas (muestras : List MuestraEst)
    (clasificaciones : List ClasifEst) : Estadisticas :=
  let conEspecie := clasificacionesConEspecie clasificaciones
  let idsConEspecie := conEspecie.map (fun c => c.id_muestra)
  let muestrasClasificadas :=
    muestras.filter (fun m => idsConEspecie.contains m.id)
  let totalMuestras := muestrasClasificadas.length
  let maps := acumularEspecies muestrasClasificadas conEspecie
    (acumularPrimeraPasada muestrasClasificadas)
  { departamentos := departamentosSalida maps.1 totalMuestras
    regiones := regionesSalida maps.2 totalMuestras
    total_especimenes := totalMuestras
    total_clasificaciones := conEspecie.length
    especies_amenazadas := amenazasSalida conEspecie }

/-- Row of the embedded classification array of the
`GET /estadisticas/taxonomia` query (app.js lines 601-631). -/
structure ClasifTax where
  id : Nat
  id_especie : Option Nat
  estado : String
  especie : Option Especie
deriving DecidableEq

/-- Row of the `muestra_botanica` query of `GET /estadisticas/taxonomia`:
sample id, its classification array, and its location join chain. -/
structure MuestraTax where
  id : Nat
  clasificacion : List ClasifTax
  paquete : Option PaqueteJoin
deriving DecidableEq

/-- Output row of `GET /estadisticas/taxonomia`. -/
structure TaxonSalida where
  name : String
  count : Nat
  percentage : Nat
deriving DecidableEq

/-- The server-side part of the taxonomy query: the
`!inner` embed with `.in('clasificacion.estado', ['completado',
'firmado'])` and `.not('clasificacion.id_especie', 'is', null)` filters
both the embedded classification arrays and the parent sample rows. -/
def consultaTaxonomia (ms : List MuestraTax) : List MuestraTax :=
  (ms.map (fun (m : MuestraTax) =>
    { m with
      clasificacion := m.clasificacion.filter (fun c =>
        (c.estado == "completado" || c.estado == "firmado") &&
          c.id_especie.isSome) })).filter
    (fun m => !m.clasificacion.isEmpty)

/-- `muestrasFiltradas` (app.js lines 648-662): keep the query rows whose
department (for `tipo === 'departamento'`) or region under the three
spelling comparisons (for `tipo === 'region'`) matches `ubicacion`. -/
def muestrasFiltradas (tipo ubicacion : String) (ms : List MuestraTax) :
    List MuestraTax :=
  (consultaTaxonomia ms).filter (fun m =>
    let dept := deptDePaquete m.paquete
    let region := dept.bind (fun d => d.region)
    if tipo == "departamento" then
      dept.map (fun d => d.nombre) == some ubicacion
    else if tipo == "region" then
      ((region.map (fun r => r.nombre)).bind normalizarRegion) ==
          some ubicacion ||
        region.map (fun r => r.nombre) == some ubicacion ||
        region.map (fun r => r.nombre) == some ("Región " ++ ubicacion)
    else false)

/-- `taxonNombre` (app.js lines 687-692): the genus's family name at
level `familia`, the genus name at level `genero`. -/
def nombreTaxon (nivel : String) (e : Especie) : Option String :=
  if nivel == "familia" then
    (e.genero.bind (fun g => g.familia)).map (fun f => f.nombre)
  else if nivel == "genero" then
    e.genero.map (fun g => g.nombre)
  else none

/-- The taxon-counting double loop of `GET /estadisticas/taxonomia`
(app.js lines 675-699): per filtered sample and per classification with a
truthy `id_especie` and a non-null `especie`, increment the bucket of the
resolved taxon name when it is truthy. -/
def contarTaxones (nivel : String) (ms : List MuestraTax) :
    List (String × Nat) :=
  List.foldl
    (fun mapa m =>
      List.foldl
        (fun mapa c =>
          match c.especie with
          | none => mapa
          | some e =>
            if !(jsTruthyNat c.id_especie) then mapa
            else
              match nombreTaxon nivel e with
              | some t =>
                if jsTruthy t then
                  mapaPoner mapa t ((mapaObtener mapa t).getD 0 + 1)
                else mapa
              | none => mapa)
        mapa m.clasificacion)
    [] ms

/-- `GET /estadisticas/taxonomia` (app.js lines 663-718): count taxa over
the filtered samples, map the buckets to rows whose percentage divides by
the number of *filtered samples*, sort descending by count (stable) and
keep the top 10. -/
def estadisticasTaxonomia (tipo ubicacion nivel : String)
    (ms : List MuestraTax) : List TaxonSalida :=
  let filtradas := muestrasFiltradas tipo ubicacion ms
  let total := filtradas.length
  (ordenarEstable (fun a b => b.count ≤ a.count)
    ((contarTaxones nivel filtradas).map (fun kv =>
      (⟨kv.1, kv.2,
        if 0 < total then jsRound (100 * kv.2) total else 0⟩ :
        TaxonSalida)))).take 10

/-- Following the spec's words (for comparison with the code): the
filtered samples that have at least one classification with a resolvable
taxon name at the requested level — the denominator the spec prescribes
for the percentages of `GET /estadisticas/taxonomia`. -/
def muestrasConTaxonSegunSpec (tipo ubicacion nivel : String)
    (ms : List MuestraTax) : List MuestraTax :=
  (muestrasFiltradas tipo ubicacion ms).filter (fun m =>
    m.clasificacion.any (fun c =>
      c.especie.isSome && jsTruthyNat c.id_especie &&
        ((c.especie.bind (fun e => nombreTaxon nivel e)).map jsTruthy ==
          some true)))

end Lab

/-! Concrete inputs used by the counterexamples and witnesses below. -/

/-- A package of 3 samples: 2 with a `completado` classification, 1 with
no classification record. -/
def filasEjemploC3 : List (List String) := [["completado"], ["completado"], []]

/-- A database whose package 1 already stores the state the recompute
derives for it (`recibido`: one sample, no classifications). -/
def dbEjemploC2 : GestHerb.DB :=
  ⟨[⟨1, some 1⟩], [], [⟨1, "recibido"⟩], 1⟩

/-- An empty database. -/
def dbVacia : GestHerb.DB := ⟨[], [], [], 0⟩

/-- A database with one classification row (id 7) for sample 1 of
package 1. -/
def dbEjemploC10 : GestHerb.DB :=
  ⟨[⟨1, some 1⟩], [⟨7, 1, "borrador", none, none⟩], [⟨1, "recibido"⟩], 8⟩

/-- A location join chain placing a sample in the given department. -/
def paqueteEnDept (dept : Lab.Departamento) : Option Lab.PaqueteJoin :=
  some ⟨some ⟨some ⟨"Mun", some dept⟩⟩⟩

/-- Two samples, one in a department of stored region `"Andina"`, the
other in a department of stored region `"Región Andina"`. -/
def muestrasEjemploC5 : List Lab.MuestraEst :=
  [⟨1, paqueteEnDept ⟨"D1", some ⟨"Andina"⟩⟩⟩,
   ⟨2, paqueteEnDept ⟨"D2", some ⟨"Región Andina"⟩⟩⟩]

/-- One completed classification with a species for each of the two
samples above. -/
def clasifsEjemploC5 : List Lab.ClasifEst :=
  [⟨1, 1, some 1, "completado", some ⟨"E1", none, none⟩⟩,
   ⟨2, 2, some 2, "completado", some ⟨"E1", none, none⟩⟩]

/-- A location join chain in department `Cundinamarca` (no region). -/
def paqueteCundinamarca : Option Lab.PaqueteJoin :=
  paqueteEnDept ⟨"Cundinamarca", none⟩

/-- Two samples in the same department, both with a completed
classification with a species: one species resolves to family `FamA`,
the other has no genus (so no resolvable family). -/
def muestrasEjemploC4 : List Lab.MuestraTax :=
  [⟨1, [⟨1, some 1, "completado", some ⟨"E1", none, some ⟨"G", some ⟨"FamA"⟩⟩⟩⟩],
    paqueteCundinamarca⟩,
   ⟨2, [⟨2, some 2, "completado", some ⟨"E2", none, none⟩⟩],
    paqueteCundinamarca⟩]

/-- A region accumulation map holding only the prefixed spelling. -/
def rmapEjemploC5 : List (String × Lab.DatosRegion) :=
  [("Región Andina", ⟨"Región Andina", 3, [], [], []⟩)]

/-- One sample with no location. -/
def muestrasEjemploC7 : List Lab.MuestraEst := [⟨1, none⟩]

/-- One classification in state `borrador` (so not a classified
specimen). -/
def clasifsEjemploC7 : List Lab.ClasifEst :=
  [⟨1, 1, some 1, "borrador", none⟩]

/-! Theorems. -/

/-- The counting pass, started at any accumulator, adds the two
filter-based counts of the claim. -/
theorem foldl_pasoContar (filas : List (List String)) (a b : Nat) :
    List.foldl GestHerb.pasoContar (a, b) filas =
      (a + GestHerb.cuentaCompletadasSegunSpec filas,
       b + GestHerb.cuentaEnProcesoSegunSpec filas) := by
  induction filas generalizing a b with
  | nil => simp [GestHerb.cuentaCompletadasSegunSpec, GestHerb.cuentaEnProcesoSegunSpec]
  | cons fila resto ih =>
    rw [List.foldl_cons]
    cases h : fila.head? with
    | none =>
      rw [show GestHerb.pasoContar (a, b) fila = (a, b) from by
        simp [GestHerb.pasoContar, h], ih]
      simp [GestHerb.cuentaCompletadasSegunSpec,
        GestHerb.cuentaEnProcesoSegunSpec, List.filter_cons, h]
    | some estado =>
      by_cases h1 : estado ∈ ["completado", "firmado", "clasificado"]
      · have h2 : estado ∉ ["en_analisis", "borrador"] := by
          simp only [List.mem_cons, List.not_mem_nil, or_false] at h1 ⊢
          rcases h1 with rfl | rfl | rfl <;> simp
        rw [show GestHerb.pasoContar (a, b) fila = (a + 1, b) from by
          simp [GestHerb.pasoContar, h, h1], ih]
        simp only [GestHerb.cuentaCompletadasSegunSpec,
          GestHerb.cuentaEnProcesoSegunSpec, List.filter_cons, h, h1, h2,
          decide_eq_true_eq, if_true, if_false, List.length_cons]
        rw [Prod.mk.injEq]
        constructor <;> omega
      · by_cases h2 : estado ∈ ["en_analisis", "borrador"]
        · rw [show GestHerb.pasoContar (a, b) fila = (a, b + 1) from by
            simp [GestHerb.pasoContar, h, h1, h2], ih]
          simp only [GestHerb.cuentaCompletadasSegunSpec,
            GestHerb.cuentaEnProcesoSegunSpec, List.filter_cons, h, h1, h2,
            decide_eq_true_eq, if_true, if_false, List.length_cons]
          rw [Prod.mk.injEq]
          constructor <;> omega
        · rw [show GestHerb.pasoContar (a, b) fila = (a, b) from by
            simp [GestHerb.pasoContar, h, h1, h2], ih]
          simp only [GestHerb.cuentaCompletadasSegunSpec,
            GestHerb.cuentaEnProcesoSegunSpec, List.filter_cons, h, h1, h2,
            decide_eq_true_eq, if_true, if_false, List.length_cons]

/-- C1: for every package, the state derived by the recompute is
`completo` iff the sample count is positive and the samples whose
classification state lies in `{completado, firmado, clasificado}` are all
of them; else `en_proceso` iff at least one sample's classification state
lies in `{en_analisis, borrador}`; else `recibido` — samples with no
classification record counting toward neither. -/
theorem c1_estado_paquete_segun_conteos (filas : List (List String)) :
    GestHerb.nuevoEstadoPaquete filas =
      if 0 < filas.length ∧
          GestHerb.cuentaCompletadasSegunSpec filas = filas.length then
        "completo"
      else if 0 < GestHerb.cuentaEnProcesoSegunSpec filas then "en_proceso"
      else "recibido" := by
  unfold GestHerb.nuevoEstadoPaquete GestHerb.contarClasificaciones
  rw [foldl_pasoContar]
  simp

/-- C3 (counterexample): on 3 samples with 2 `completado` classifications
and 1 unclassified sample the recompute derives `recibido`, not the
`en_proceso` the claim states. -/
theorem c3_counterexample :
    GestHerb.nuevoEstadoPaquete filasEjemploC3 ≠ "en_proceso" ∧
    GestHerb.nuevoEstadoPaquete filasEjemploC3 = "recibido" := by decide

/-- C3 (amended): on 3 samples with 2 `completado` classifications and 1
unclassified sample the recompute derives `recibido` (not `completo`). -/
theorem c3_tres_muestras_recibido :
    GestHerb.nuevoEstadoPaquete filasEjemploC3 = "recibido" ∧
    GestHerb.nuevoEstadoPaquete filasEjemploC3 ≠ "completo" := by decide

/-- C2 (code bug): the recompute writes the `paquete` row even when the
derived state equals the stored one — on a package already in `recibido`
whose derivation yields `recibido` again, a write `(1, "recibido")` is
still performed. -/
theorem c2_escritura_incondicional :
    (GestHerb.actualizarEstadoPaqueteManual dbEjemploC2 GestHerb.sinFallos 1).2 =
      [(1, "recibido")] ∧
    dbEjemploC2.paquetes = [⟨1, "recibido"⟩] := by decide

/-- C9: when the sample lookup fails, the sample does not exist, or its
owning-package reference is null, the recompute returns with the database
unchanged and no write performed. -/
theorem c9_recompute_sin_escritura (db : GestHerb.DB)
    (f : GestHerb.FallosRecompute) (idMuestra : Nat)
    (h : f.fallaBusquedaMuestra = true ∨
      db.muestras.find? (fun m => m.id == idMuestra) = none ∨
      ∃ m, db.muestras.find? (fun m => m.id == idMuestra) = some m ∧
        m.id_paquete = none) :
    GestHerb.actualizarEstadoPaqueteManual db f idMuestra = (db, []) := by
  unfold GestHerb.actualizarEstadoPaqueteManual
  rcases h with h | h | ⟨m, hm, hp⟩
  · simp [h]
  · by_cases hb : f.fallaBusquedaMuestra <;> simp [hb, h]
  · by_cases hb : f.fallaBusquedaMuestra <;> simp [hb, hm, hp]

/-- Witness for `c9_recompute_sin_escritura` on the empty database. -/
theorem c9_recompute_sin_escritura_witness :
    GestHerb.actualizarEstadoPaqueteManual dbVacia GestHerb.sinFallos 5 =
      (dbVacia, []) :=
  c9_recompute_sin_escritura dbVacia GestHerb.sinFallos 5
    (Or.inr (Or.inl (by decide)))

/-- The recompute only ever touches the `paquetes` table: the resulting
database differs from the input at most in that field. -/
theorem recompute_solo_paquetes (db : GestHerb.DB)
    (f : GestHerb.FallosRecompute) (idMuestra : Nat) :
    ∃ pq, (GestHerb.actualizarEstadoPaqueteManual db f idMuestra).1 =
      { db with paquetes := pq } := by
  unfold GestHerb.actualizarEstadoPaqueteManual
  split
  · exact ⟨db.paquetes, rfl⟩
  · split
    · exact ⟨db.paquetes, rfl⟩
    · split
      · exact ⟨db.paquetes, rfl⟩
      · split
        · exact ⟨db.paquetes, rfl⟩
        · split
          · exact ⟨db.paquetes, rfl⟩
          · exact ⟨_, rfl⟩

/-- C6: the response of `PUT /clasificaciones/:idMuestra/estado` does not
depend on the failures injected into the background package recompute,
and for a valid id and non-empty state it is a success (200 or 201) —
every recompute failure is swallowed. -/
theorem c6_respuesta_no_depende_del_recompute (db : GestHerb.DB)
    (f g : GestHerb.FallosRecompute) (idMuestra : Nat) (estado : String)
    (h : estado ≠ "") :
    (GestHerb.putEstadoPorMuestra db f (some idMuestra) (some estado)).1 =
      (GestHerb.putEstadoPorMuestra db g (some idMuestra) (some estado)).1 ∧
    ((GestHerb.putEstadoPorMuestra db f (some idMuestra) (some estado)).1.status = 200 ∨
      (GestHerb.putEstadoPorMuestra db f (some idMuestra) (some estado)).1.status = 201) := by
  have ht : jsTruthyStr (some estado) = true := by simp [jsTruthyStr, h]
  unfold GestHerb.putEstadoPorMuestra
  simp only [ht, Bool.not_true, Bool.false_eq_true, if_false]
  cases hfind : db.clasificaciones.find? (fun c => c.id_muestra == idMuestra) <;>
    simp [hfind]

/-- Witness for `c6_respuesta_no_depende_del_recompute`: all-failing
versus no-failing recompute on a concrete request. -/
theorem c6_respuesta_no_depende_del_recompute_witness :
    (GestHerb.putEstadoPorMuestra dbVacia GestHerb.sinFallos (some 1)
        (some "borrador")).1 =
      (GestHerb.putEstadoPorMuestra dbVacia ⟨true, true, true⟩ (some 1)
        (some "borrador")).1 ∧
    ((GestHerb.putEstadoPorMuestra dbVacia GestHerb.sinFallos (some 1)
        (some "borrador")).1.status = 200 ∨
      (GestHerb.putEstadoPorMuestra dbVacia GestHerb.sinFallos (some 1)
        (some "borrador")).1.status = 201) :=
  c6_respuesta_no_depende_del_recompute dbVacia GestHerb.sinFallos
    ⟨true, true, true⟩ 1 "borrador" (by decide)

/-- C8: on a sample with no classification record, the estado endpoint
creates a new classification row with the given state, null species and
null reproductive state, and responds 201 with the new row's id. -/
theorem c8_upsert_crea_clasificacion (db : GestHerb.DB)
    (f : GestHerb.FallosRecompute) (idMuestra : Nat) (estado : String)
    (h1 : estado ≠ "")
    (h2 : db.clasificaciones.find? (fun c => c.id_muestra == idMuestra) = none) :
    (GestHerb.putEstadoPorMuestra db f (some idMuestra) (some estado)).1.status = 201 ∧
    (GestHerb.putEstadoPorMuestra db f (some idMuestra) (some estado)).1.id =
      some db.sigClasifId ∧
    (⟨db.sigClasifId, idMuestra, estado, none, none⟩ : GestHerb.Clasificacion) ∈
      (GestHerb.putEstadoPorMuestra db f (some idMuestra) (some estado)).2.clasificaciones := by
  have ht : jsTruthyStr (some estado) = true := by simp [jsTruthyStr, h1]
  unfold GestHerb.putEstadoPorMuestra
  simp only [ht, Bool.not_true, Bool.false_eq_true, if_false, h2]
  refine ⟨by trivial, by trivial, ?_⟩
  simp only [Option.getD_some]
  obtain ⟨pq, hpq⟩ := recompute_solo_paquetes
    { db with
      clasificaciones :=
        db.clasificaciones ++ [⟨db.sigClasifId, idMuestra, estado, none, none⟩],
      sigClasifId := db.sigClasifId + 1 } f idMuestra
  rw [hpq]
  simp

/-- Witness for `c8_upsert_crea_clasificacion` on the empty database. -/
theorem c8_upsert_crea_clasificacion_witness :
    (GestHerb.putEstadoPorMuestra dbVacia GestHerb.sinFallos (some 3)
        (some "en_analisis")).1.status = 201 ∧
    (GestHerb.putEstadoPorMuestra dbVacia GestHerb.sinFallos (some 3)
        (some "en_analisis")).1.id = some 0 ∧
    (⟨0, 3, "en_analisis", none, none⟩ : GestHerb.Clasificacion) ∈
      (GestHerb.putEstadoPorMuestra dbVacia GestHerb.sinFallos (some 3)
        (some "en_analisis")).2.clasificaciones := by
  have h := c8_upsert_crea_clasificacion dbVacia GestHerb.sinFallos 3
    "en_analisis" (by decide) (by decide)
  exact ⟨h.1, h.2.1, h.2.2⟩

/-- The database after `PUT /clasificaciones/id/:id/estado` with a
non-empty state: the classification table is exactly the input table with
the given state written to every row of that id. -/
theorem putEstadoPorId_clasificaciones (db : GestHerb.DB)
    (f : GestHerb.FallosRecompute) (idClasif : Nat) (s : String)
    (hs : s ≠ "") :
    (GestHerb.putEstadoPorId db f idClasif (some s)).2.clasificaciones =
      db.clasificaciones.map (fun c =>
        if c.id == idClasif then { c with estado := s } else c) := by
  have ht : jsTruthyStr (some s) = true := by simp [jsTruthyStr, hs]
  unfold GestHerb.putEstadoPorId
  simp only [ht, Bool.not_true, Bool.false_eq_true, if_false,
    Option.getD_some]
  cases hf : (db.clasificaciones.map (fun (c : GestHerb.Clasificacion) =>
      if c.id == idClasif then { c with estado := s } else c)).find?
      (fun c => c.id == idClasif) with
  | none => simp [hf]
  | some c =>
    by_cases hm : c.id_muestra ≠ 0
    · obtain ⟨pq, hpq⟩ := recompute_solo_paquetes
        { db with
          clasificaciones := db.clasificaciones.map (fun c =>
            if c.id == idClasif then { c with estado := s } else c) } f
        c.id_muestra
      simp only [hf]
      rw [hpq, if_pos hm]
    · simp [hf, hm]

/-- C10: the by-classification-id state endpoint performs no lifecycle
validation: a falsy `estado` is rejected with 400 and the database left
unchanged, while every non-empty string — enum member or not — is written
to the matching classification rows and answered with a 200 echoing it. -/
theorem c10_estado_sin_validacion (db : GestHerb.DB)
    (f : GestHerb.FallosRecompute) (idClasif : Nat) (estado : Option String) :
    (jsTruthyStr estado = false →
      (GestHerb.putEstadoPorId db f idClasif estado).1.status = 400 ∧
      (GestHerb.putEstadoPorId db f idClasif estado).2 = db) ∧
    (∀ s, estado = some s → s ≠ "" →
      (GestHerb.putEstadoPorId db f idClasif estado).1.status = 200 ∧
      (GestHerb.putEstadoPorId db f idClasif estado).1.estado = some s ∧
      ∀ c ∈ (GestHerb.putEstadoPorId db f idClasif estado).2.clasificaciones,
        c.id = idClasif → c.estado = s) := by
  constructor
  · intro hfalse
    unfold GestHerb.putEstadoPorId
    simp [hfalse]
  · rintro s rfl hs
    have ht : jsTruthyStr (some s) = true := by simp [jsTruthyStr, hs]
    refine ⟨?_, ?_, ?_⟩
    · unfold GestHerb.putEstadoPorId
      simp [ht]
    · unfold GestHerb.putEstadoPorId
      simp [ht]
    · intro c hc hid
      rw [putEstadoPorId_clasificaciones db f idClasif s hs] at hc
      obtain ⟨c0, hc0, rfl⟩ := List.mem_map.mp hc
      by_cases hb : (c0.id == idClasif) = true
      · simp [hb]
      · rw [if_neg hb] at hid
        exact absurd (by simp [hid]) hb

/-- Witness for `c10_estado_sin_validacion`: the out-of-enum state
`"xyz"` is accepted with 200 and echoed; the empty state is rejected
with 400. -/
theorem c10_estado_sin_validacion_witness :
    (GestHerb.putEstadoPorId dbEjemploC10 GestHerb.sinFallos 7
        (some "xyz")).1.status = 200 ∧
    (GestHerb.putEstadoPorId dbEjemploC10 GestHerb.sinFallos 7
        (some "xyz")).1.estado = some "xyz" ∧
    (GestHerb.putEstadoPorId dbEjemploC10 GestHerb.sinFallos 7
        (some "")).1.status = 400 := by
  have h := c10_estado_sin_validacion dbEjemploC10 GestHerb.sinFallos 7
    (some "xyz")
  have h0 := c10_estado_sin_validacion dbEjemploC10 GestHerb.sinFallos 7
    (some "")
  exact ⟨(h.2 "xyz" rfl (by decide)).1, (h.2 "xyz" rfl (by decide)).2.1,
    (h0.1 (by decide)).1⟩

/-- Inserting with `insertarOrdenado` permutes consing. -/
theorem insertarOrdenado_perm {α : Type} (le : α → α → Bool) (x : α)
    (l : List α) : (insertarOrdenado le x l).Perm (x :: l) := by
  induction l with
  | nil => rfl
  | cons y ys ih =>
    unfold insertarOrdenado
    by_cases h : le y x
    · rw [if_pos h]
      exact (ih.cons y).trans (List.Perm.swap x y ys)
    · rw [if_neg h]

/-- The stable sort permutes its input. -/
theorem ordenarEstable_perm {α : Type} (le : α → α → Bool) (l : List α) :
    (ordenarEstable le l).Perm l := by
  induction l with
  | nil => rfl
  | cons x xs ih =>
    exact (insertarOrdenado_perm le x (ordenarEstable le xs)).trans (ih.cons x)

/-- C5 (counterexample): with one classified specimen stored under region
`"Andina"` and one under `"Región Andina"` — both normalizing to Andina —
the Andina output row reports only 1 of the 2 specimens: the two
spellings are accumulated in separate buckets and not merged. -/
theorem c5_counterexample :
    (Lab.estadisticas muestrasEjemploC5 clasifsEjemploC5).regiones.head? =
      some ⟨"Andina", 1, 1, 1, 0, 50⟩ ∧
    Lab.normalizarRegion "Región Andina" = some "Andina" ∧
    Lab.normalizarRegion "Andina" = some "Andina" ∧
    (Lab.estadisticas muestrasEjemploC5 clasifsEjemploC5).total_especimenes = 2 := by
  decide

/-- C5 (amended): either spelling alone resolves to the base-named output
bucket — the per-base lookup returns the bucket stored under the exact
base name when present, else the one stored under the `Región `-prefixed
name — but buckets of distinct spellings are never summed. -/
theorem c5_resolucion_por_variante
    (rmap : List (String × Lab.DatosRegion)) (base : String) :
    (∀ d, Lab.mapaObtener rmap base = some d →
      Lab.resolverRegion rmap base = some d) ∧
    (Lab.mapaObtener rmap base = none →
      ∀ d, Lab.mapaObtener rmap ("Región " ++ base) = some d →
        Lab.resolverRegion rmap base = some d) := by
  unfold Lab.resolverRegion
  constructor
  · intro d hd
    rw [hd]
  · intro h0 d hd
    rw [h0, hd]

/-- Witness for `c5_resolucion_por_variante`: a map holding only the
prefixed spelling resolves to its bucket for base name `Andina`. -/
theorem c5_resolucion_por_variante_witness :
    Lab.mapaObtener rmapEjemploC5 "Andina" = none ∧
    Lab.resolverRegion rmapEjemploC5 "Andina" =
      some ⟨"Región Andina", 3, [], [], []⟩ :=
  ⟨by decide,
    (c5_resolucion_por_variante rmapEjemploC5 "Andina").2 (by decide)
      ⟨"Región Andina", 3, [], [], []⟩ (by decide)⟩

/-- C4 (counterexample): with 2 filtered samples of which only 1 has a
resolvable family, the single output row has percentage 50 — the sample
without a resolvable taxon stays in the denominator — whereas the claim's
denominator (the 1 resolvable sample) would give 100. -/
theorem c4_counterexample :
    Lab.estadisticasTaxonomia "departamento" "Cundinamarca" "familia"
        muestrasEjemploC4 =
      [⟨"FamA", 1, 50⟩] ∧
    (Lab.muestrasConTaxonSegunSpec "departamento" "Cundinamarca" "familia"
        muestrasEjemploC4).length = 1 ∧
    jsRound (100 * 1) 1 = 100 ∧ (50 : Nat) ≠ 100 := by
  decide

/-- C4 (amended): every row returned by the taxonomic aggregator has
`percentage = round(count / |filtered samples| * 100)` — the denominator
is the number of location-filtered samples, including those without a
resolvable taxon at the requested level (only the counts exclude them). -/
theorem c4_porcentaje_sobre_filtradas (tipo ubicacion nivel : String)
    (ms : List Lab.MuestraTax) (e : Lab.TaxonSalida)
    (he : e ∈ Lab.estadisticasTaxonomia tipo ubicacion nivel ms) :
    0 < (Lab.muestrasFiltradas tipo ubicacion ms).length ∧
    e.percentage =
      jsRound (100 * e.count)
        (Lab.muestrasFiltradas tipo ubicacion ms).length := by
  simp only [Lab.estadisticasTaxonomia] at he
  have he1 := List.mem_of_mem_take he
  have he2 := (ordenarEstable_perm _ _).mem_iff.mp he1
  obtain ⟨kv, hkv, rfl⟩ := List.mem_map.mp he2
  have hne : Lab.muestrasFiltradas tipo ubicacion ms ≠ [] := by
    intro h0
    rw [h0] at hkv
    simp [Lab.contarTaxones] at hkv
  have hpos : 0 < (Lab.muestrasFiltradas tipo ubicacion ms).length :=
    List.length_pos.mpr hne
  refine ⟨hpos, ?_⟩
  show (if 0 < (Lab.muestrasFiltradas tipo ubicacion ms).length then
      jsRound (100 * kv.2) (Lab.muestrasFiltradas tipo ubicacion ms).length
    else 0) =
    jsRound (100 * kv.2) (Lab.muestrasFiltradas tipo ubicacion ms).length
  rw [if_pos hpos]

/-- Witness for `c4_porcentaje_sobre_filtradas` on the concrete
two-sample input. -/
theorem c4_porcentaje_sobre_filtradas_witness :
    (⟨"FamA", 1, 50⟩ : Lab.TaxonSalida) ∈
      Lab.estadisticasTaxonomia "departamento" "Cundinamarca" "familia"
        muestrasEjemploC4 ∧
    0 < (Lab.muestrasFiltradas "departamento" "Cundinamarca"
        muestrasEjemploC4).length ∧
    (⟨"FamA", 1, 50⟩ : Lab.TaxonSalida).percentage =
      jsRound (100 * (⟨"FamA", 1, 50⟩ : Lab.TaxonSalida).count)
        (Lab.muestrasFiltradas "departamento" "Cundinamarca"
          muestrasEjemploC4).length := by
  have h := c4_porcentaje_sobre_filtradas "departamento" "Cundinamarca"
    "familia" muestrasEjemploC4 ⟨"FamA", 1, 50⟩ (by decide)
  exact ⟨by decide, h.1, h.2⟩

/-- C7: with zero classified specimens (no completed/signed
classification with a species), `GET /estadisticas` returns 0 total
specimens, an empty department list, the five fixed zero-valued regions,
and an empty threat list. -/
theorem c7_estadisticas_sin_clasificados (muestras : List Lab.MuestraEst)
    (clasificaciones : List Lab.ClasifEst)
    (h : ∀ c ∈ clasificaciones,
      (c.estado = "completado" ∨ c.estado = "firmado") →
      c.id_especie = none ∨ c.especie = none) :
    Lab.estadisticas muestras clasificaciones =
      { departamentos := [],
        regiones := [⟨"Andina", 0, 0, 0, 0, 0⟩, ⟨"Caribe", 0, 0, 0, 0, 0⟩,
          ⟨"Pacífica", 0, 0, 0, 0, 0⟩, ⟨"Orinoquía", 0, 0, 0, 0, 0⟩,
          ⟨"Amazonía", 0, 0, 0, 0, 0⟩],
        total_especimenes := 0,
        total_clasificaciones := 0,
        especies_amenazadas := [] } := by
  have hempty : Lab.clasificacionesConEspecie clasificaciones = [] := by
    unfold Lab.clasificacionesConEspecie Lab.clasificacionesFiltradas
    refine List.filter_eq_nil_iff.mpr ?_
    intro c hc
    have hcl := List.mem_filter.mp hc
    have hq : c.estado = "completado" ∨ c.estado = "firmado" := by
      have := hcl.2
      simp only [Bool.or_eq_true, beq_iff_eq] at this
      exact this
    rcases h c hcl.1 hq with h1 | h1 <;> simp [h1]
  simp only [Lab.estadisticas, hempty, List.map_nil]
  have hmc : muestras.filter (fun m => ([] : List Nat).contains m.id) = [] := by
    simp
  rw [hmc]
  decide

/-- Witness for `c7_estadisticas_sin_clasificados` on a concrete
database with one sample and one draft classification. -/
theorem c7_estadisticas_sin_clasificados_witness :
    Lab.estadisticas muestrasEjemploC7 clasifsEjemploC7 =
      { departamentos := [],
        regiones := [⟨"Andina", 0, 0, 0, 0, 0⟩, ⟨"Caribe", 0, 0, 0, 0, 0⟩,
          ⟨"Pacífica", 0, 0, 0, 0, 0⟩, ⟨"Orinoquía", 0, 0, 0, 0, 0⟩,
          ⟨"Amazonía", 0, 0, 0, 0, 0⟩],
        total_especimenes := 0,
        total_clasificaciones := 0,
        especies_amenazadas := [] } :=
  c7_estadisticas_sin_clasificados muestrasEjemploC7 clasifsEjemploC7
    (by decide)
